import Mathlib

set_option maxRecDepth 8000

/-!
Verification of the QR acquisition pipeline of the helix-user-scan repository.

The development shallowly embeds the pipeline code:
the dual-format payload parser `parseScannedData` (src/unnamed/part_000 and
part_001), the still-image fallback `handleUpload`, the camera teardown
`stopCamera`, the frame decode loop `decodeLoop`, the negotiation fallback
ladder `startCamera` of src/unnamed/part_002, and the default-device
selection heuristics (`findBackCameraId` of part_002 and the device-list
effect of src/components/qr-scanner.tsx).

Platform calls (JSON.parse, new URL, getUserMedia, jsQR, zxing
decodeFromImageUrl, requestAnimationFrame) are modelled by their observable
outcomes, passed in as explicit data; the repository code operating on those
outcomes is translated line by line.
-/

/- ===================== JS value model ===================== -/

/-- Result value of a successful `JSON.parse` call, as seen by the scan page.
Numbers are modelled by their exact non-negative integral double value
(`jNum n` is the double whose value is the integer `n`); JSON arrays are not
modelled since no code of the repository recurses into parsed values. -/
inductive JsVal where
  | jNull : JsVal
  | jBool : Bool → JsVal
  | jNum : Nat → JsVal
  | jStr : String → JsVal
  | jObj : List (String × JsVal) → JsVal

/-- JS truthiness of a parsed JSON value: `null`, `false`, the number `0` and
the empty string are falsy; objects are always truthy. -/
def truthy : JsVal → Bool
  | JsVal.jNull => false
  | JsVal.jBool b => b
  | JsVal.jNum n => n != 0
  | JsVal.jStr s => s != ""
  | JsVal.jObj _ => true

/-- Field lookup in a parsed object. `JSON.parse` keeps the last duplicate
key, so lookup returns the last binding of the key. -/
def getField (fields : List (String × JsVal)) (key : String) : Option JsVal :=
  fields.foldl (fun acc kv => if kv.1 = key then some kv.2 else acc) none

/-- Property access `v.key`: only objects carry the fields the page reads;
on every other value the access yields JS `undefined`, modelled as `none`. -/
def jsGetProp (v : JsVal) (key : String) : Option JsVal :=
  match v with
  | JsVal.jObj fields => getField fields key
  | _ => none

/-- JS truthiness of a possibly-undefined value (`none` models `undefined`). -/
def truthyOpt : Option JsVal → Bool
  | none => false
  | some v => truthy v

/-- The JS `String(v)` coercion on the modelled values. Integral doubles
below 10^21 render as their decimal digits. -/
def jsToString : JsVal → String
  | JsVal.jNull => "null"
  | JsVal.jBool true => "true"
  | JsVal.jBool false => "false"
  | JsVal.jNum n => Nat.repr n
  | JsVal.jStr s => s
  | JsVal.jObj _ => "[object Object]"

/-- The JS `String(v)` coercion where `v` may be `undefined`. -/
def jsToStringOpt : Option JsVal → String
  | none => "undefined"
  | some v => jsToString v

/-- The coercion `x ? String(x) : undefined` applied by the parser to the
optional `qrId` and `valueWei` fields. -/
def coerceOptField (g : Option JsVal) : Option String :=
  match g with
  | some v => if truthy v then some (jsToString v) else none
  | none => none

/- ===================== double rounding for JSON number literals ====== -/

/-- Exponent of the distance between consecutive binary64 doubles around the
non-negative integer `n`: the least `e` with `n < 2 ^ (53 + e)`. -/
def dblUlpExp (n : Nat) : Nat :=
  ((List.range 976).find? (fun e => n < 2 ^ (53 + e))).getD 0

/-- Value produced by `JSON.parse` for a non-negative integer number literal
`n`: the nearest binary64 double, ties to even significand. Integers below
2 ^ 53 are exact. -/
def roundToDouble (n : Nat) : Nat :=
  let e := dblUlpExp n
  if e = 0 then n
  else
    let p := 2 ^ e
    let q := n / p
    let r := n % p
    if r < p / 2 then q * p
    else if p / 2 < r then (q + 1) * p
    else if q % 2 = 0 then q * p else (q + 1) * p

/- ===================== URL model ===================== -/

/-- Query string of a successfully constructed `new URL(raw)`, as the ordered
list of decoded (name, value) pairs. -/
structure UrlParts where
  params : List (String × String)
deriving DecidableEq

/-- `url.searchParams.get(key)`: the value of the first parameter with that
name, or `null` (modelled `none`) when absent. -/
def getParam (u : UrlParts) (key : String) : Option String :=
  (u.params.find? (fun p => p.1 == key)).map (fun p => p.2)

/-- The JS `a || b` on nullable strings: `a` when it is truthy (present and
non-empty), otherwise `b`. -/
def jsOr (a b : Option String) : Option String :=
  match a with
  | some s => if s = "" then b else some s
  | none => b

/- ===================== the payload parser ===================== -/

/-- Record produced by `parseScannedData` (type `ParsedScan` in the source,
with its optional fields as options). -/
structure RaffleEntry where
  raffleId : String
  qrId : Option String
  valueWei : Option String
deriving DecidableEq

/-- Classification of a raw scanned string by the platform parses the source
applies in order: `JSON.parse(raw)` succeeds with a value; or it throws and
`new URL(raw)` succeeds; or both throw. Each raw string falls in exactly one
class, and the source consults the URL only inside the JSON catch block. -/
inductive RawText where
  | isJson : JsVal → RawText
  | isUrl : UrlParts → RawText
  | isNeither : RawText

/-- Shallow embedding of `parseScannedData` (src/unnamed/part_000 lines
11-33): JSON branch guarded by the truthiness test `json && json.raffleId`,
URL branch reading camelCase-then-snake_case parameters with `||`, guarded by
the truthiness of the resulting `raffleId`; `null` on everything else. -/
def parseScannedData (raw : RawText) : Option RaffleEntry :=
  match raw with
  | RawText.isJson json =>
      if truthy json && truthyOpt (jsGetProp json "raffleId") then
        some { raffleId := jsToStringOpt (jsGetProp json "raffleId")
               qrId := coerceOptField (jsGetProp json "qrId")
               valueWei := coerceOptField (jsGetProp json "valueWei") }
      else none
  | RawText.isUrl url =>
      let raffleId := jsOr (getParam url "raffleId") (getParam url "raffle_id")
      let qrId := jsOr (jsOr (getParam url "qrId") (getParam url "qr_id")) none
      let valueWei := jsOr (jsOr (getParam url "valueWei") (getParam url "value_wei")) none
      match raffleId with
      | some s => if s = "" then none else some { raffleId := s, qrId := qrId, valueWei := valueWei }
      | none => none
  | RawText.isNeither => none

/- ===================== device enumeration and selection ============= -/

/-- A `videoinput` entry of `navigator.mediaDevices.enumerateDevices()`.
Both fields may be empty strings before camera permission is granted. -/
structure VideoDevice where
  deviceId : String
  label : String
deriving DecidableEq

/-- Characters of `s` lowercased, the effect of a case-insensitive regex. -/
def lowerChars (s : String) : List Char :=
  s.data.map Char.toLower

/-- Whether the first list is a leading segment of the second. -/
def isPrefOf : List Char → List Char → Bool
  | [], _ => true
  | _ :: _, [] => false
  | c :: cs, d :: ds => c == d && isPrefOf cs ds

/-- Whether the needle occurs contiguously inside the hay. -/
def hasSubChars (needle : List Char) : List Char → Bool
  | [] => needle.isEmpty
  | c :: rest => isPrefOf needle (c :: rest) || hasSubChars needle rest

/-- Case-insensitive substring test, the meaning of `/pat/i.test(s)` for the
literal alternatives used by the source. -/
def testCI (pat s : String) : Bool :=
  hasSubChars (lowerChars pat) (lowerChars s)

/-- The test `/back|rear|environment/i.test(label)`. -/
def backLabelRegex (label : String) : Bool :=
  testCI "back" label || testCI "rear" label || testCI "environment" label

/-- The test `/facing back/i.test(label)`. -/
def facingBackRegex (label : String) : Bool :=
  testCI "facing back" label

/-- The test `/front|true depth|truedepth/i.test(label)`. -/
def frontDepthRegex (label : String) : Bool :=
  testCI "front" label || testCI "true depth" label || testCI "truedepth" label

/-- Predicate of the `list.find` call inside `findBackCameraId`
(src/unnamed/part_002 lines 50-54). -/
def backCameraPred (d : VideoDevice) : Bool :=
  backLabelRegex d.label || (facingBackRegex d.label && !frontDepthRegex d.label)

/-- Fallback of `findBackCameraId` when no matching device with a truthy id
exists: the last-listed device if more than one, else the first (absent on an
empty list). JS `undefined` is modelled as `none`. -/
def backCameraFallback (list : List VideoDevice) : Option String :=
  if list.length > 1 then list.getLast?.map VideoDevice.deviceId
  else list.head?.map VideoDevice.deviceId

/-- Shallow embedding of `findBackCameraId` (src/unnamed/part_002 lines
47-62): first device matching the back-label predicate, returned only when
its deviceId is truthy; otherwise the fallback. -/
def findBackCameraId (list : List VideoDevice) : Option String :=
  match list.find? backCameraPred with
  | some d => if d.deviceId ≠ "" then some d.deviceId else backCameraFallback list
  | none => backCameraFallback list

/-- Predicate of the `vids.find` call of the device-list effect in
src/components/qr-scanner.tsx (lines 44-49): note the third alternative
`/truedepth/i.test(d.label) === false`. -/
def autoSelectPred (d : VideoDevice) : Bool :=
  backLabelRegex d.label || facingBackRegex d.label || (testCI "truedepth" d.label == false)

/-- Device chosen by the device-list effect in src/components/qr-scanner.tsx
when the selection is still `auto`: the first device satisfying
`autoSelectPred`, kept only when its deviceId is truthy. -/
def autoSelectDeviceId (list : List VideoDevice) : Option String :=
  match list.find? autoSelectPred with
  | some d => if d.deviceId ≠ "" then some d.deviceId else none
  | none => none

/- ===================== camera teardown ===================== -/

/-- The three mutable handles `stopCamera` touches: the scheduled
animation-frame callback id, the held stream (as its track ids), and the
video element srcObject. -/
structure ScannerRefs where
  raf : Option Nat
  stream : Option (List Nat)
  videoSrc : Option (List Nat)
deriving DecidableEq

/-- Externally visible effects of one `stopCamera` call. -/
inductive StopAction where
  | cancelFrame (id : Nat)
  | stopTrack (id : Nat)
deriving DecidableEq

/-- Shallow embedding of `stopCamera` (src/unnamed/part_002 lines 78-90 and
src/components/qr-scanner.tsx lines 73-85): cancel the scheduled frame if
any, stop every track of the held stream if any, null the refs and the video
srcObject. The function is total, so the call can never throw. -/
def stopCamera (s : ScannerRefs) : ScannerRefs × List StopAction :=
  let rafActs := match s.raf with
    | some id => [StopAction.cancelFrame id]
    | none => []
  let trackActs := match s.stream with
    | some ts => ts.map StopAction.stopTrack
    | none => []
  (⟨none, none, none⟩, rafActs ++ trackActs)

/- ===================== still-image fallback ===================== -/

/-- Outcome of the awaited `reader.decodeFromImageUrl(url)` call: a resolved
result carrying its text, or a rejection carrying the error message
(`e.message`, possibly empty). -/
inductive DecodeImageResult where
  | ok (text : String)
  | raised (msg : String)
deriving DecidableEq

/-- Observable outcome of one `handleUpload` call. -/
structure UploadOutcome where
  urlCreated : Bool
  urlRevoked : Bool
  scanned : Option String
  errMsg : Option String
  isDecodingImage : Bool
deriving DecidableEq

/-- Shallow embedding of `handleUpload` (src/unnamed/part_002 lines 239-262
and src/components/qr-scanner.tsx lines 178-201): the object URL is created
first; `URL.revokeObjectURL` is the statement directly after the awaited
decode, so it runs only when the decode resolves; the catch block sets the
error message without revoking; the finally block clears the decoding flag. -/
def handleUpload (res : DecodeImageResult) : UploadOutcome :=
  match res with
  | DecodeImageResult.ok t =>
      if t ≠ "" then
        { urlCreated := true, urlRevoked := true, scanned := some t,
          errMsg := none, isDecodingImage := false }
      else
        { urlCreated := true, urlRevoked := true, scanned := none,
          errMsg := some "No QR code detected in the image.", isDecodingImage := false }
  | DecodeImageResult.raised m =>
      { urlCreated := true, urlRevoked := false, scanned := none,
        errMsg := some (if m ≠ "" then m else "Failed to decode QR from image."),
        isDecodingImage := false }

/-- Object URLs still alive after a sequence of `handleUpload` calls. -/
def leakedAfter (results : List DecodeImageResult) : Nat :=
  (results.map handleUpload).countP (fun o => o.urlCreated && !o.urlRevoked)

/- ===================== decode loop ===================== -/

/-- One video frame as observed by a `tick` of the decode loop: whether the
video has reached `HAVE_ENOUGH_DATA`, the frame dimensions, and the outcome
of the `jsQR` call on its pixels (`some d` is a detected code whose data is
`d`; `none` is no code). -/
structure Frame where
  ready : Bool
  width : Nat
  height : Nat
  decoded : Option String
deriving DecidableEq

/-- State threaded through the decode loop: the camera refs, the `started`
flag, the texts delivered to `onScanned`, the number of `jsQR` decode
attempts, and the number of times the `onScanned` handler threw (each one
swallowed by the catch around the call). -/
structure DecodeState where
  cam : ScannerRefs
  started : Bool
  emitted : List String
  decodeCalls : Nat
  handlerErrors : Nat
deriving DecidableEq

/-- Scheduling of the next animation frame: `rafRef.current` receives the
fresh callback id. -/
def resched (s : DecodeState) (nextId : Nat) : DecodeState :=
  { s with cam := { s.cam with raf := some nextId } }

/-- The guarded call `try onScanned(d) catch log`: the text is delivered
either way; a throwing handler only increments the swallowed-error count. -/
def emitTo (cb : String → Except Unit Unit) (s : DecodeState) (d : String) : DecodeState :=
  match cb d with
  | Except.ok _ => { s with emitted := s.emitted ++ [d] }
  | Except.error _ =>
      { s with emitted := s.emitted ++ [d], handlerErrors := s.handlerErrors + 1 }

/-- Shallow embedding of one `tick` of `decodeLoop` (src/unnamed/part_002
lines 104-135): reschedule while the frame is not ready or has zero
dimensions; otherwise run one decode; on a detected code with truthy data,
deliver it (exceptions of the handler are caught), clear `started`, call
`stopCamera` and do not reschedule; otherwise reschedule. The Bool of the
result is whether a next tick was scheduled. -/
def tickFrame (cb : String → Except Unit Unit) (nextId : Nat) (s : DecodeState)
    (f : Frame) : DecodeState × Bool :=
  if !f.ready then (resched s nextId, true)
  else if f.width = 0 || f.height = 0 then (resched s nextId, true)
  else
    let s1 := { s with decodeCalls := s.decodeCalls + 1 }
    match f.decoded with
    | some d =>
        if d ≠ "" then
          let s2 := emitTo cb s1 d
          ({ s2 with started := false, cam := (stopCamera s2.cam).1 }, false)
        else (resched s1 nextId, true)
    | none => (resched s1 nextId, true)

/-- The decode loop over the sequence of frames the platform would deliver:
each scheduled tick consumes the next frame; once a tick does not reschedule,
no callback exists and the remaining frames are never examined. -/
def runLoop (cb : String → Except Unit Unit) (s : DecodeState) :
    List Frame → DecodeState
  | [] => s
  | f :: fs =>
      let r := tickFrame cb fs.length s f
      if r.2 then runLoop cb r.1 fs else r.1

/-- State right after `startWithStream` succeeded: refs bound to the stream
tracks, a first tick scheduled, `started` true, nothing delivered yet. -/
def startedState (tracks : List Nat) : DecodeState :=
  { cam := { raf := some 0, stream := some tracks, videoSrc := some tracks }
    started := true, emitted := [], decodeCalls := 0, handlerErrors := 0 }

/-- A frame on which the tick body reaches the decode and finds a code with
truthy (non-empty) data, the condition `code && code.data` of the source. -/
def goodFrame (f : Frame) : Bool :=
  f.ready && (f.width != 0) && (f.height != 0) && (f.decoded.getD "" != "")

/-- A frame on which the tick performs a `jsQR` decode attempt. -/
def decodeAttempted (f : Frame) : Bool :=
  f.ready && (f.width != 0) && (f.height != 0)

/-- A frame delivered before the video reports enough data. -/
def notReadyFrame : Frame := ⟨false, 0, 0, none⟩

/-- A ready frame in which the decoder finds a code reading `qr-text`. -/
def qrFrame : Frame := ⟨true, 4, 4, some "qr-text"⟩

/-- A ready frame carrying a further code, delivered after a success. -/
def lateFrame : Frame := ⟨true, 4, 4, some "late"⟩

/-- A ready frame whose dimensions are still zero. -/
def zeroDimFrame : Frame := ⟨true, 0, 0, none⟩

/-- A ready frame whose decoded text makes the scan handler throw. -/
def boomFrame : Frame := ⟨true, 3, 3, some "boom"⟩

/- ===================== negotiation fallback ladder ===================== -/

/-- Error names of rejected `getUserMedia` calls that the source inspects. -/
inductive ErrName where
  | notAllowed
  | security
  | notFound
  | notReadable
  | otherErr
deriving DecidableEq

/-- The permission test `err.name === "NotAllowedError" || err.name ===
"SecurityError"` applied inside the first two rungs. -/
def isPermissionErr : ErrName → Bool
  | ErrName.notAllowed => true
  | ErrName.security => true
  | _ => false

/-- Error taxonomy of the classifier (spec section 4.5), as embodied by the
message mapping of `humanizeError`. -/
inductive ErrorKind where
  | PermissionDenied
  | NoDevice
  | DeviceBusy
  | Unknown
deriving DecidableEq

/-- Classification performed by `humanizeError` (src/unnamed/part_002 lines
64-76) on the error reaching the outer catch of `startCamera`. -/
def classifyErr : ErrName → ErrorKind
  | ErrName.notAllowed => ErrorKind.PermissionDenied
  | ErrName.security => ErrorKind.PermissionDenied
  | ErrName.notFound => ErrorKind.NoDevice
  | ErrName.notReadable => ErrorKind.DeviceBusy
  | ErrName.otherErr => ErrorKind.Unknown

/-- Outcome of one `getUserMedia` request: a stream or a named rejection. -/
inductive GumResult where
  | ok (streamId : Nat)
  | err (e : ErrName)
deriving DecidableEq

/-- Platform responses to the requests `startCamera` can make: one outcome
per constraint set (the device-pinned request indexed by the device id), plus
the device list the post-preflight enumeration returns. -/
structure CamEnv where
  exactEnv : GumResult
  idealEnv : GumResult
  preflight : GumResult
  devices : List VideoDevice
  pinned : String → GumResult
  generic : GumResult

/-- The camera requests of the ladder, in the order they are issued. -/
inductive Rung where
  | rExact
  | rIdeal
  | rPreflight
  | rPinned (id : String)
  | rGeneric
deriving DecidableEq

/-- Terminal phase of one `startCamera` run. -/
inductive CamPhase where
  | Streaming (streamId : Nat)
  | Failed (kind : ErrorKind)
deriving DecidableEq

/-- Requests issued and terminal phase of one `startCamera` run. -/
structure LadderOutcome where
  attempts : List Rung
  phase : CamPhase
deriving DecidableEq

/-- The last-resort generic request (src/unnamed/part_002 lines 210-215),
reached only when no usable back-camera id was found. -/
def genericRung (env : CamEnv) (prior : List Rung) : LadderOutcome :=
  match env.generic with
  | GumResult.ok sid => ⟨prior ++ [Rung.rGeneric], CamPhase.Streaming sid⟩
  | GumResult.err e => ⟨prior ++ [Rung.rGeneric], CamPhase.Failed (classifyErr e)⟩

/-- Continuation after a successful preflight (src/unnamed/part_002 lines
207-226): enumerate devices, pick a back camera id; when the id is absent or
empty fall to the generic request, else issue the device-pinned request; a
rejection of either request propagates to the outer catch. -/
def pinnedOrGenericRung (env : CamEnv) (prior : List Rung) : LadderOutcome :=
  match findBackCameraId env.devices with
  | none => genericRung env prior
  | some id =>
      if id = "" then genericRung env prior
      else
        match env.pinned id with
        | GumResult.ok sid => ⟨prior ++ [Rung.rPinned id], CamPhase.Streaming sid⟩
        | GumResult.err e => ⟨prior ++ [Rung.rPinned id], CamPhase.Failed (classifyErr e)⟩

/-- Shallow embedding of `startCamera` (src/unnamed/part_002 lines 165-237).
Rung 1 (exact environment) and rung 2 (ideal environment) each have an inner
catch that rethrows permission errors and otherwise falls through; the
preflight, pinned and generic requests sit directly inside the outer try, so
any rejection there reaches the outer catch, which classifies the error and
tears the session down (phase `Failed`). -/
def startCamera (env : CamEnv) : LadderOutcome :=
  match env.exactEnv with
  | GumResult.ok sid => ⟨[Rung.rExact], CamPhase.Streaming sid⟩
  | GumResult.err e1 =>
      if isPermissionErr e1 then ⟨[Rung.rExact], CamPhase.Failed (classifyErr e1)⟩
      else
        match env.idealEnv with
        | GumResult.ok sid => ⟨[Rung.rExact, Rung.rIdeal], CamPhase.Streaming sid⟩
        | GumResult.err e2 =>
            if isPermissionErr e2 then
              ⟨[Rung.rExact, Rung.rIdeal], CamPhase.Failed (classifyErr e2)⟩
            else
              match env.preflight with
              | GumResult.err e3 =>
                  ⟨[Rung.rExact, Rung.rIdeal, Rung.rPreflight],
                   CamPhase.Failed (classifyErr e3)⟩
              | GumResult.ok _ =>
                  pinnedOrGenericRung env [Rung.rExact, Rung.rIdeal, Rung.rPreflight]

/-- Platform behavior where every request is rejected because the camera is
held by another application. -/
def busyEnv : CamEnv :=
  { exactEnv := GumResult.err ErrName.notReadable
    idealEnv := GumResult.err ErrName.notReadable
    preflight := GumResult.err ErrName.notReadable
    devices := [⟨"cam-back", "Back Camera"⟩]
    pinned := fun _ => GumResult.ok 7
    generic := GumResult.ok 8 }

/-- Platform behavior where the very first request is denied by the user. -/
def permEnv : CamEnv :=
  { exactEnv := GumResult.err ErrName.notAllowed
    idealEnv := GumResult.ok 1
    preflight := GumResult.ok 2
    devices := []
    pinned := fun _ => GumResult.ok 3
    generic := GumResult.ok 4 }

/- ===================== theorems: payload parser ===================== -/

/-- Object values are always truthy in JS. -/
theorem truthy_jObj (fields : List (String × JsVal)) :
    truthy (JsVal.jObj fields) = true := rfl

/-- A string value is truthy exactly when it is non-empty. -/
theorem truthy_jStr (s : String) : truthy (JsVal.jStr s) = (s != "") := rfl

/-- C1, counterexample. The claim asserts a non-null record for every JSON
object containing a `raffleId` field regardless of its value, naming the
number 0 and the empty string; the guard `json && json.raffleId` is a JS
truthiness test, so both inputs make `parseScannedData` return null. -/
theorem parse_json_falsy_raffleId_yields_null :
    parseScannedData (RawText.isJson (JsVal.jObj [("raffleId", JsVal.jNum 0)])) = none
    ∧ parseScannedData (RawText.isJson (JsVal.jObj [("raffleId", JsVal.jStr "")])) = none := by
  decide

/-- C1, amended. For a JSON object whose `raffleId` field holds a truthy
value, `parseScannedData` returns the record with that value coerced to
text (and the optional fields coerced when truthy); when the `raffleId`
field value is falsy, it returns null. -/
theorem parse_json_truthy_raffleId_record (fields : List (String × JsVal)) :
    (∀ v, getField fields "raffleId" = some v → truthy v = true →
       parseScannedData (RawText.isJson (JsVal.jObj fields)) =
         some { raffleId := jsToString v
                qrId := coerceOptField (getField fields "qrId")
                valueWei := coerceOptField (getField fields "valueWei") })
    ∧ (truthyOpt (getField fields "raffleId") = false →
       parseScannedData (RawText.isJson (JsVal.jObj fields)) = none) := by
  constructor
  · intro v hv ht
    simp [parseScannedData, jsGetProp, hv, ht, truthy_jObj, truthyOpt, jsToStringOpt]
  · intro h
    simp [parseScannedData, jsGetProp, h, truthy_jObj]

/-- C1, witness for the amended theorem at a concrete object whose
`raffleId` is the truthy number 7. -/
theorem parse_json_truthy_raffleId_record_witness :
    parseScannedData (RawText.isJson (JsVal.jObj
        [("raffleId", JsVal.jNum 7), ("qrId", JsVal.jStr "abc")])) =
      some { raffleId := "7", qrId := some "abc", valueWei := none } :=
  (parse_json_truthy_raffleId_record
      [("raffleId", JsVal.jNum 7), ("qrId", JsVal.jStr "abc")]).1
    (JsVal.jNum 7) rfl rfl

/-- C4, counterexample. A `valueWei` given as a bare JSON number literal is
converted by `JSON.parse` to the nearest binary64 double before the parser
sees it: the literal 9007199254740993 (2 to the 53 plus 1) becomes
9007199254740992, so the produced `stakeAmount` is not the decimal digits of
the scanned value. -/
theorem parse_numeric_valueWei_precision_loss :
    roundToDouble 9007199254740993 = 9007199254740992
    ∧ parseScannedData (RawText.isJson (JsVal.jObj
        [("raffleId", JsVal.jStr "1"),
         ("valueWei", JsVal.jNum (roundToDouble 9007199254740993))]))
      = some { raffleId := "1", qrId := none, valueWei := some "9007199254740992" }
    ∧ ("9007199254740992" : String) ≠ "9007199254740993" := by
  decide

/-- C4, amended. When `valueWei` is carried as a JSON string (the format of
the spec example), the produced `stakeAmount` is that exact string: no
floating-point round-trip is applied to it. -/
theorem parse_string_valueWei_exact (fields : List (String × JsVal)) (r : JsVal) (s : String)
    (hr : getField fields "raffleId" = some r) (htr : truthy r = true)
    (hv : getField fields "valueWei" = some (JsVal.jStr s)) (hs : s ≠ "") :
    (parseScannedData (RawText.isJson (JsVal.jObj fields))).map RaffleEntry.valueWei
      = some (some s) := by
  simp [parseScannedData, jsGetProp, hr, htr, hv, hs, truthy_jObj, truthy_jStr,
    truthyOpt, coerceOptField, jsToString]

/-- C4, witness for the amended theorem at the concrete spec example input. -/
theorem parse_string_valueWei_exact_witness :
    (parseScannedData (RawText.isJson (JsVal.jObj
        [("raffleId", JsVal.jStr "123"), ("qrId", JsVal.jStr "abc"),
         ("valueWei", JsVal.jStr "1000000000000000")]))).map RaffleEntry.valueWei
      = some (some "1000000000000000") :=
  parse_string_valueWei_exact
    [("raffleId", JsVal.jStr "123"), ("qrId", JsVal.jStr "abc"),
     ("valueWei", JsVal.jStr "1000000000000000")]
    (JsVal.jStr "123") "1000000000000000" rfl rfl rfl (by decide)

/-- C7, counterexample. The claim asserts the camelCase parameter wins even
when its value is the empty string; the `||` chains treat the empty string
as falsy, so an empty `raffleId` falls through to `raffle_id` and an empty
`qrId` falls through to `qr_id`. -/
theorem url_empty_camelCase_not_used :
    parseScannedData (RawText.isUrl ⟨[("raffleId", ""), ("raffle_id", "7")]⟩)
      = some { raffleId := "7", qrId := none, valueWei := none }
    ∧ parseScannedData (RawText.isUrl ⟨[("raffleId", "1"), ("qrId", ""), ("qr_id", "zz")]⟩)
      = some { raffleId := "1", qrId := some "zz", valueWei := none }
    ∧ ("7" : String) ≠ "" ∧ ("zz" : String) ≠ "" := by
  decide

/-- C7, amended. CamelCase is checked before snake_case and the first
parameter with a non-empty value wins per field (a present but empty
camelCase value falls through); the concrete example of the spec holds. -/
theorem url_param_priority (u : UrlParts) :
    (∀ s, getParam u "raffleId" = some s → s ≠ "" →
       (parseScannedData (RawText.isUrl u)).map RaffleEntry.raffleId = some s)
    ∧ (∀ r s, getParam u "raffleId" = some r → r ≠ "" →
         getParam u "qrId" = some s → s ≠ "" →
         (parseScannedData (RawText.isUrl u)).map RaffleEntry.qrId = some (some s))
    ∧ (∀ r s, getParam u "raffleId" = some r → r ≠ "" →
         getParam u "valueWei" = some s → s ≠ "" →
         (parseScannedData (RawText.isUrl u)).map RaffleEntry.valueWei = some (some s))
    ∧ parseScannedData (RawText.isUrl ⟨[("raffleId", "42"), ("qr_id", "zz")]⟩)
      = some { raffleId := "42", qrId := some "zz", valueWei := none } := by
  refine ⟨?_, ?_, ?_, by decide⟩
  · intro s h hs
    simp [parseScannedData, jsOr, h, hs]
  · intro r s hr hrne h hs
    simp [parseScannedData, jsOr, hr, hrne, h, hs]
  · intro r s hr hrne h hs
    simp [parseScannedData, jsOr, hr, hrne, h, hs]

/-- C7, witness for the amended theorem: the camelCase `raffleId` wins over a
simultaneously present snake_case spelling. -/
theorem url_param_priority_witness :
    (parseScannedData (RawText.isUrl
        ⟨[("raffleId", "42"), ("raffle_id", "99")]⟩)).map RaffleEntry.raffleId
      = some "42" :=
  (url_param_priority ⟨[("raffleId", "42"), ("raffle_id", "99")]⟩).1
    "42" (by decide) (by decide)

/-- C8. `parseScannedData` is a total function of the classified input (the
embedding of every exit path of the source, which catches both platform
parse exceptions), and every input that is not a JSON object carrying a
`raffleId` field and not a URI carrying a `raffleId` or `raffle_id` query
parameter yields null. -/
theorem parseScannedData_total_null_cases (raw : RawText)
    (hjson : ∀ v, raw = RawText.isJson v → jsGetProp v "raffleId" = none)
    (hurl : ∀ u, raw = RawText.isUrl u →
        getParam u "raffleId" = none ∧ getParam u "raffle_id" = none) :
    parseScannedData raw = none := by
  cases raw with
  | isJson v =>
      have h := hjson v rfl
      simp [parseScannedData, h, truthyOpt]
  | isUrl u =>
      obtain ⟨h1, h2⟩ := hurl u rfl
      simp [parseScannedData, h1, h2, jsOr]
  | isNeither => rfl

/-- C8, witness at a URI whose query carries neither spelling of the raffle
id, matching the spec example of unparseable text. -/
theorem parseScannedData_total_null_cases_witness :
    parseScannedData (RawText.isUrl ⟨[("foo", "bar")]⟩) = none :=
  parseScannedData_total_null_cases (RawText.isUrl ⟨[("foo", "bar")]⟩)
    (fun _ h => nomatch h)
    (fun u h => by cases h; exact ⟨rfl, rfl⟩)

/- ===================== theorems: still-image fallback ================ -/

/-- C2. The code bug: `URL.revokeObjectURL` is placed after the awaited
decode instead of in the finally block, so on a decoder rejection (which is
how the zxing reader reports an image with no code) the created object URL
is never revoked, and each failing upload leaks one handle; the resolving
paths do revoke. -/
theorem handleUpload_revoke_skipped_on_raise :
    (handleUpload (DecodeImageResult.raised "no code found")).urlCreated = true
    ∧ (handleUpload (DecodeImageResult.raised "no code found")).urlRevoked = false
    ∧ (handleUpload (DecodeImageResult.ok "text")).urlRevoked = true
    ∧ (handleUpload (DecodeImageResult.ok "")).urlRevoked = true
    ∧ leakedAfter (List.replicate 3 (DecodeImageResult.raised "no code found")) = 3 := by
  decide

/- ===================== theorems: device selection ===================== -/

/-- C6. The code bug: the device-list effect of src/components/qr-scanner.tsx
carries the disjunct `/truedepth/i.test(d.label) === false`, which holds for
any label not containing truedepth, so with a front camera listed first the
effect auto-selects the front camera even though a back-labelled device
exists — contradicting the claim and the adjacent source comment (Prefer a
back camera by default if any looks like it). The `findBackCameraId` variant
of src/unnamed/part_002 returns the back camera on the same list. -/
theorem autoSelect_prefers_front_camera :
    autoSelectDeviceId [⟨"cam-front", "Front Camera"⟩, ⟨"cam-back", "Back Camera"⟩]
      = some "cam-front"
    ∧ findBackCameraId [⟨"cam-front", "Front Camera"⟩, ⟨"cam-back", "Back Camera"⟩]
      = some "cam-back"
    ∧ ("cam-front" : String) ≠ "cam-back"
    ∧ backLabelRegex "Back Camera" = true
    ∧ backLabelRegex "Front Camera" = false := by
  decide

/- ===================== theorems: stop ===================== -/

/-- C9. `stopCamera` on an idle session (no scheduled frame, no stream, no
bound srcObject) changes nothing and performs no action, and from any state
a second call right after a first one leaves the state unchanged and
performs no action; the function is total, so neither call can throw. -/
theorem stopCamera_idle_noop_idempotent (s : ScannerRefs) :
    (s = ⟨none, none, none⟩ → stopCamera s = (s, []))
    ∧ stopCamera (stopCamera s).1 = ((stopCamera s).1, []) := by
  constructor
  · intro h
    subst h
    rfl
  · rfl

/-- C9, witness: a stop on the idle state is observably a no-op. -/
theorem stopCamera_idle_noop_idempotent_witness :
    stopCamera ⟨none, none, none⟩ = (⟨none, none, none⟩, []) :=
  (stopCamera_idle_noop_idempotent ⟨none, none, none⟩).1 rfl

/- ===================== theorems: negotiation ladder ===================== -/

/-- Permission-class errors are classified `PermissionDenied`. -/
theorem classifyErr_of_permission (e : ErrName) (h : isPermissionErr e = true) :
    classifyErr e = ErrorKind.PermissionDenied := by
  cases e <;> first
    | rfl
    | simp [isPermissionErr] at h

/-- Every request of the generic rung keeps the rungs already attempted. -/
theorem mem_genericRung (env : CamEnv) (prior : List Rung) (r : Rung)
    (h : r ∈ prior) : r ∈ (genericRung env prior).attempts := by
  cases hg : env.generic <;>
    simp only [genericRung, hg, LadderOutcome.mk.injEq, List.mem_append] <;>
    exact Or.inl h

/-- Every request after a successful preflight keeps the rungs already
attempted. -/
theorem mem_pinnedOrGenericRung (env : CamEnv) (prior : List Rung) (r : Rung)
    (h : r ∈ prior) : r ∈ (pinnedOrGenericRung env prior).attempts := by
  unfold pinnedOrGenericRung
  cases hb : findBackCameraId env.devices with
  | none => exact mem_genericRung env prior r h
  | some id =>
      by_cases hid : id = ""
      · simp only [hid, if_pos rfl]
        exact mem_genericRung env prior r h
      · simp only [if_neg hid]
        cases hp : env.pinned id <;>
          simp only [List.mem_append] <;>
          exact Or.inl h

/-- C3, counterexample. When the camera is busy (`NotReadableError`, a
non-permission failure), rung 3 — the preflight request — fails and the
whole ladder aborts as `Failed DeviceBusy`: the generic rung 4 is never
attempted, refuting that a non-permission failure at any rung before the
last always leads to an attempt of the following rung. -/
theorem startCamera_busy_rung3_aborts_ladder :
    (startCamera busyEnv).attempts = [Rung.rExact, Rung.rIdeal, Rung.rPreflight]
    ∧ (startCamera busyEnv).phase = CamPhase.Failed ErrorKind.DeviceBusy
    ∧ Rung.rGeneric ∉ (startCamera busyEnv).attempts
    ∧ isPermissionErr ErrName.notReadable = false := by
  decide

/-- C3, amended. A permission-denial failure at rung 1 or rung 2 aborts the
ladder immediately with `Failed PermissionDenied`; a non-permission failure
at rung 1 causes rung 2 to be attempted and at rung 2 causes the preflight
of rung 3 to be attempted; but any failure of rung 3 — of the preflight
request or of the device-pinned request — aborts the ladder with that
failure's classified kind, rung 4 being reserved for the case where no
usable device id was selected. -/
theorem startCamera_ladder_characterization (env : CamEnv) :
    (∀ e1, env.exactEnv = GumResult.err e1 → isPermissionErr e1 = true →
       startCamera env = ⟨[Rung.rExact], CamPhase.Failed ErrorKind.PermissionDenied⟩)
    ∧ (∀ e1 e2, env.exactEnv = GumResult.err e1 → isPermissionErr e1 = false →
         env.idealEnv = GumResult.err e2 → isPermissionErr e2 = true →
         startCamera env
           = ⟨[Rung.rExact, Rung.rIdeal], CamPhase.Failed ErrorKind.PermissionDenied⟩)
    ∧ (∀ e1, env.exactEnv = GumResult.err e1 → isPermissionErr e1 = false →
         Rung.rIdeal ∈ (startCamera env).attempts)
    ∧ (∀ e1 e2, env.exactEnv = GumResult.err e1 → isPermissionErr e1 = false →
         env.idealEnv = GumResult.err e2 → isPermissionErr e2 = false →
         Rung.rPreflight ∈ (startCamera env).attempts)
    ∧ (∀ e1 e2 e3, env.exactEnv = GumResult.err e1 → isPermissionErr e1 = false →
         env.idealEnv = GumResult.err e2 → isPermissionErr e2 = false →
         env.preflight = GumResult.err e3 →
         startCamera env
           = ⟨[Rung.rExact, Rung.rIdeal, Rung.rPreflight],
              CamPhase.Failed (classifyErr e3)⟩)
    ∧ (∀ e1 e2 sid id e4, env.exactEnv = GumResult.err e1 → isPermissionErr e1 = false →
         env.idealEnv = GumResult.err e2 → isPermissionErr e2 = false →
         env.preflight = GumResult.ok sid →
         findBackCameraId env.devices = some id → id ≠ "" →
         env.pinned id = GumResult.err e4 →
         startCamera env
           = ⟨[Rung.rExact, Rung.rIdeal, Rung.rPreflight, Rung.rPinned id],
              CamPhase.Failed (classifyErr e4)⟩) := by
  refine ⟨?_, ?_, ?_, ?_, ?_, ?_⟩
  · intro e1 h1 hp
    simp [startCamera, h1, hp, classifyErr_of_permission e1 hp]
  · intro e1 e2 h1 hp1 h2 hp2
    simp [startCamera, h1, hp1, h2, hp2, classifyErr_of_permission e2 hp2]
  · intro e1 h1 hp1
    simp only [startCamera, h1, hp1, Bool.false_eq_true, if_false]
    cases h2 : env.idealEnv with
    | ok sid => simp
    | err e2 =>
        cases hp2 : isPermissionErr e2 with
        | true => simp [hp2]
        | false =>
            simp only [hp2, Bool.false_eq_true, if_false]
            cases h3 : env.preflight with
            | err e3 => simp
            | ok sid =>
                exact mem_pinnedOrGenericRung env _ _ (by simp)
  · intro e1 e2 h1 hp1 h2 hp2
    simp only [startCamera, h1, hp1, h2, hp2, Bool.false_eq_true, if_false]
    cases h3 : env.preflight with
    | err e3 => simp
    | ok sid =>
        exact mem_pinnedOrGenericRung env _ _ (by simp)
  · intro e1 e2 e3 h1 hp1 h2 hp2 h3
    simp [startCamera, h1, hp1, h2, hp2, h3]
  · intro e1 e2 sid id e4 h1 hp1 h2 hp2 h3 hb hid hp
    simp [startCamera, h1, hp1, h2, hp2, h3, pinnedOrGenericRung, hb, hid, hp]

/-- C3, witness: the very first request denied by the user aborts the whole
ladder with `Failed PermissionDenied` — no other rung is attempted. -/
theorem startCamera_ladder_characterization_witness :
    startCamera permEnv = ⟨[Rung.rExact], CamPhase.Failed ErrorKind.PermissionDenied⟩ :=
  (startCamera_ladder_characterization permEnv).1 ErrName.notAllowed rfl rfl

/- ===================== theorems: decode loop ===================== -/

/-- A tick on a frame that does not yield a code with truthy data always
reschedules, delivers nothing, and counts one decode exactly when the frame
reached the decode call. -/
theorem tickFrame_bad (cb : String → Except Unit Unit) (nextId : Nat) (s : DecodeState)
    (g : Frame) (hg : goodFrame g = false) :
    tickFrame cb nextId s g
      = ({ s with
            cam := { s.cam with raf := some nextId },
            decodeCalls := s.decodeCalls + (if decodeAttempted g then 1 else 0) }, true) := by
  rcases g with ⟨gr, gw, gh, gd⟩
  cases gr with
  | false => simp [tickFrame, resched, decodeAttempted]
  | true =>
      by_cases hw : gw = 0
      · simp [tickFrame, resched, decodeAttempted, hw]
      · by_cases hh : gh = 0
        · simp [tickFrame, resched, decodeAttempted, hw, hh]
        · cases gd with
          | none => simp [tickFrame, resched, decodeAttempted, hw, hh]
          | some d =>
              have hd : d = "" := by
                simp [goodFrame, hw, hh] at hg
                exact hg
              subst hd
              simp [tickFrame, resched, decodeAttempted, hw, hh]

/-- A tick on a frame whose decode finds a code with truthy data delivers
the data, clears `started`, runs the teardown, and does not reschedule. -/
theorem tickFrame_good (cb : String → Except Unit Unit) (nextId : Nat) (s : DecodeState)
    (f : Frame) (hf : goodFrame f = true) :
    tickFrame cb nextId s f
      = ({ emitTo cb { s with decodeCalls := s.decodeCalls + 1 } (f.decoded.getD "") with
            started := false,
            cam := ⟨none, none, none⟩ }, false) := by
  rcases f with ⟨gr, gw, gh, gd⟩
  cases gr with
  | false => simp [goodFrame] at hf
  | true =>
      by_cases hw : gw = 0
      · simp [goodFrame, hw] at hf
      · by_cases hh : gh = 0
        · simp [goodFrame, hh] at hf
        · cases gd with
          | none => simp [goodFrame] at hf
          | some d =>
              have hd : d ≠ "" := by simpa [goodFrame, hw, hh] using hf
              simp [tickFrame, hw, hh, hd, stopCamera]

/-- The guarded handler call only appends the delivered text and counts a
swallowed exception when the handler throws. -/
theorem emitTo_fields (cb : String → Except Unit Unit) (s : DecodeState) (d : String) :
    (emitTo cb s d).cam = s.cam
    ∧ (emitTo cb s d).started = s.started
    ∧ (emitTo cb s d).emitted = s.emitted ++ [d]
    ∧ (emitTo cb s d).decodeCalls = s.decodeCalls
    ∧ (emitTo cb s d).handlerErrors
        = s.handlerErrors + (if (cb d).isOk then 0 else 1) := by
  cases h : cb d <;> simp [emitTo, h, Except.isOk, Except.toBool]

/-- Unfolding of the loop when the tick schedules a next frame. -/
theorem runLoop_cons_true (cb : String → Except Unit Unit) (s : DecodeState)
    (g : Frame) (fs : List Frame) (s2 : DecodeState)
    (h : tickFrame cb fs.length s g = (s2, true)) :
    runLoop cb s (g :: fs) = runLoop cb s2 fs := by
  simp [runLoop, h]

/-- Unfolding of the loop when the tick does not reschedule. -/
theorem runLoop_cons_false (cb : String → Except Unit Unit) (s : DecodeState)
    (g : Frame) (fs : List Frame) (s2 : DecodeState)
    (h : tickFrame cb fs.length s g = (s2, false)) :
    runLoop cb s (g :: fs) = s2 := by
  simp [runLoop, h]

/-- Running the loop over frames in which the first code with truthy data
appears after a run of codeless frames: exactly that one text is delivered,
the refs are fully torn down, `started` is cleared, the decode count stops
at the first success (frames arriving afterwards are never examined), and a
throwing handler only shows up in the swallowed-error count. -/
theorem runLoop_first_good_frame (cb : String → Except Unit Unit)
    (pre : List Frame) (f : Frame) (post : List Frame)
    (hpre : ∀ g ∈ pre, goodFrame g = false) (hf : goodFrame f = true) (s : DecodeState) :
    (runLoop cb s (pre ++ f :: post)).started = false
    ∧ (runLoop cb s (pre ++ f :: post)).cam = (⟨none, none, none⟩ : ScannerRefs)
    ∧ (runLoop cb s (pre ++ f :: post)).emitted = s.emitted ++ [f.decoded.getD ""]
    ∧ (runLoop cb s (pre ++ f :: post)).decodeCalls
        = s.decodeCalls + pre.countP decodeAttempted + 1
    ∧ (runLoop cb s (pre ++ f :: post)).handlerErrors
        = s.handlerErrors + (if (cb (f.decoded.getD "")).isOk then 0 else 1) := by
  induction pre generalizing s with
  | nil =>
      obtain ⟨hc, hs, he, hdc, hh⟩ :=
        emitTo_fields cb { s with decodeCalls := s.decodeCalls + 1 } (f.decoded.getD "")
      rw [List.nil_append,
        runLoop_cons_false cb s f post _ (tickFrame_good cb post.length s f hf)]
      simp [hc, hs, he, hdc, hh]
  | cons g rest ih =>
      have hg := hpre g (List.mem_cons_self g rest)
      have hrest : ∀ x ∈ rest, goodFrame x = false :=
        fun x hx => hpre x (List.mem_cons_of_mem g hx)
      rw [List.cons_append,
        runLoop_cons_true cb s g (rest ++ f :: post) _
          (tickFrame_bad cb (rest ++ f :: post).length s g hg)]
      obtain ⟨h1, h2, h3, h4, h5⟩ := ih hrest
        { s with
            cam := { s.cam with raf := some (rest ++ f :: post).length },
            decodeCalls := s.decodeCalls + (if decodeAttempted g then 1 else 0) }
      refine ⟨?_, ?_, ?_, ?_, ?_⟩
      · simpa using h1
      · simpa using h2
      · simpa using h3
      · rw [h4, List.countP_cons]
        cases hda : decodeAttempted g <;> simp only [hda, if_true, if_false] <;> omega
      · simpa using h5

/-- C5, counterexample. The claim counts any decode returning a code as a
success; `jsQR` can return a code whose data is the empty string, and the
guard `code && code.data` treats it as no code: after that first successful
decode the loop keeps going, performs a second decode attempt and emits the
second frame's text — so "no further decode attempt runs" fails as stated. -/
theorem decodeLoop_empty_data_continues :
    (runLoop (fun _ => Except.ok ()) (startedState [0])
        [⟨true, 2, 2, some ""⟩, ⟨true, 2, 2, some "x"⟩]).decodeCalls = 2
    ∧ (runLoop (fun _ => Except.ok ()) (startedState [0])
        [⟨true, 2, 2, some ""⟩, ⟨true, 2, 2, some "x"⟩]).emitted = ["x"]
    ∧ goodFrame ⟨true, 2, 2, some ""⟩ = false := by
  decide

/-- C5, amended. The live session is single-shot with respect to decodes
that yield a code with non-empty text: whatever frames precede the first
such frame, its text is emitted exactly once, `started` is cleared, the
camera refs are fully torn down, and no decode attempt runs on any frame
delivered afterwards (the decode count stops at the first success). -/
theorem decodeLoop_single_shot (cb : String → Except Unit Unit) (tracks : List Nat)
    (pre : List Frame) (f : Frame) (post : List Frame)
    (hpre : ∀ g ∈ pre, goodFrame g = false) (hf : goodFrame f = true) :
    (runLoop cb (startedState tracks) (pre ++ f :: post)).emitted = [f.decoded.getD ""]
    ∧ (runLoop cb (startedState tracks) (pre ++ f :: post)).started = false
    ∧ (runLoop cb (startedState tracks) (pre ++ f :: post)).cam
        = (⟨none, none, none⟩ : ScannerRefs)
    ∧ (runLoop cb (startedState tracks) (pre ++ f :: post)).decodeCalls
        = pre.countP decodeAttempted + 1 := by
  obtain ⟨h1, h2, h3, h4, h5⟩ :=
    runLoop_first_good_frame cb pre f post hpre hf (startedState tracks)
  exact ⟨by simpa [startedState] using h3, h1, h2, by simpa [startedState] using h4⟩

/-- C5, witness: a not-ready frame, then a decoded code `qr-text`, then a
late frame that is never examined. -/
theorem decodeLoop_single_shot_witness :
    (runLoop (fun _ => Except.ok ()) (startedState [1, 2])
        ([notReadyFrame] ++ qrFrame :: [lateFrame])).emitted = [qrFrame.decoded.getD ""]
    ∧ (runLoop (fun _ => Except.ok ()) (startedState [1, 2])
        ([notReadyFrame] ++ qrFrame :: [lateFrame])).started = false
    ∧ (runLoop (fun _ => Except.ok ()) (startedState [1, 2])
        ([notReadyFrame] ++ qrFrame :: [lateFrame])).cam
        = (⟨none, none, none⟩ : ScannerRefs)
    ∧ (runLoop (fun _ => Except.ok ()) (startedState [1, 2])
        ([notReadyFrame] ++ qrFrame :: [lateFrame])).decodeCalls
        = [notReadyFrame].countP decodeAttempted + 1 :=
  decodeLoop_single_shot (fun _ => Except.ok ()) [1, 2] [notReadyFrame] qrFrame [lateFrame]
    (by decide) (by decide)

/-- C10. With a handler that always throws on delivery, the exception is
confined to the guarded call (it shows up only in the swallowed-error
count): the session still leaves the started state, the stream ref and the
frame-callback ref are still cleared, and the loop is not rescheduled — the
text is still delivered exactly once. -/
theorem decodeLoop_callback_raise_teardown (tracks : List Nat)
    (pre : List Frame) (f : Frame) (post : List Frame)
    (hpre : ∀ g ∈ pre, goodFrame g = false) (hf : goodFrame f = true) :
    (runLoop (fun _ => Except.error ()) (startedState tracks) (pre ++ f :: post)).started
        = false
    ∧ (runLoop (fun _ => Except.error ()) (startedState tracks) (pre ++ f :: post)).cam.stream
        = none
    ∧ (runLoop (fun _ => Except.error ()) (startedState tracks) (pre ++ f :: post)).cam.raf
        = none
    ∧ (runLoop (fun _ => Except.error ()) (startedState tracks) (pre ++ f :: post)).handlerErrors
        = 1
    ∧ (runLoop (fun _ => Except.error ()) (startedState tracks) (pre ++ f :: post)).emitted
        = [f.decoded.getD ""] := by
  obtain ⟨h1, h2, h3, h4, h5⟩ :=
    runLoop_first_good_frame (fun _ => Except.error ()) pre f post hpre hf
      (startedState tracks)
  refine ⟨h1, by rw [h2], by rw [h2], ?_, by simpa [startedState] using h3⟩
  simpa [startedState, Except.isOk, Except.toBool] using h5

/-- C10, witness: a zero-dimension frame, then a decode whose delivery makes
the handler throw; the teardown still completes. -/
theorem decodeLoop_callback_raise_teardown_witness :
    (runLoop (fun _ => Except.error ()) (startedState [9])
        ([zeroDimFrame] ++ boomFrame :: [])).started = false
    ∧ (runLoop (fun _ => Except.error ()) (startedState [9])
        ([zeroDimFrame] ++ boomFrame :: [])).cam.stream = none
    ∧ (runLoop (fun _ => Except.error ()) (startedState [9])
        ([zeroDimFrame] ++ boomFrame :: [])).cam.raf = none
    ∧ (runLoop (fun _ => Except.error ()) (startedState [9])
        ([zeroDimFrame] ++ boomFrame :: [])).handlerErrors = 1
    ∧ (runLoop (fun _ => Except.error ()) (startedState [9])
        ([zeroDimFrame] ++ boomFrame :: [])).emitted = [boomFrame.decoded.getD ""] :=
  decodeLoop_callback_raise_teardown [9] [zeroDimFrame] boomFrame []
    (by decide) (by decide)

